import Mathlib

/-!
Shallow embedding of the FCommunityBE social-graph and chat-session core.

The Redis-backed state is modelled as a record of typed key families
(`user:{id}:friends`, `user:{id}:incoming_friend_requests`, `user:{id}:dms`,
`user:{id}:groups`, `chat:{id}:members`, `chat:{id}:meta`,
`chat:{id}:messages`, `user:email:{e}`, `user:{id}`).  The key templates are
pairwise disjoint (their constant suffixes/prefixes differ) and injective in
the embedded id, so one function per family keyed by the id is a faithful
representation of the flat key space.  JSON serialization of messages is
modelled as the identity (stringify followed by parse); HTTP authentication,
JWT verification and zod input validation are out of scope (spec section 1)
and inputs arrive already typed.  `randomUUID()` and `Date.now()` are
nondeterministic, so fresh ids and timestamps are passed as parameters.
Numeric HTTP statuses mirror the handlers: 200/201 success, 400 invalid,
401 unauthorized, 403 forbidden, 404 not found, 409 conflict, 422 payload.
-/

namespace FComm

/-- User profile hash stored at `user:{id}` (written by signup). -/
structure Profile where
  id : String
  name : String
  email : String
  image : Option String
deriving DecidableEq, Repr

/-- A chat message `{id, senderId, text, timestamp}` (timestamps are epoch
milliseconds, modelled as `Nat`). -/
structure Message where
  id : String
  senderId : String
  text : String
  timestamp : Nat
deriving DecidableEq, Repr

/-- One entry of the per-chat sorted message log `chat:{id}:messages`:
the member (a serialized `Message`) together with its score. -/
structure MsgEntry where
  score : Nat
  msg : Message
deriving DecidableEq, Repr

/-- The chat metadata hash `chat:{id}:meta`.  A field is `none` when the
hash has no such field; the all-`none` record is the absent/empty hash
(`hgetall` returns `{}` for a missing key). -/
structure ChatMeta where
  type : Option String := none
  name : Option String := none
  createdAt : Option Nat := none
  createdBy : Option String := none
  user1 : Option String := none
  user2 : Option String := none
  updatedAt : Option Nat := none
  lastMessage : Option Message := none
deriving DecidableEq, Repr

/-- The empty `chat:{id}:meta` hash. -/
def emptyMeta : ChatMeta := {}

/-- The whole durable store, one field per Redis key family. -/
structure DB where
  /-- `user:email:{e}` → user id (written by signup). -/
  emailIndex : String → Option String
  /-- `user:{id}` profile hash; `none` = absent. -/
  profiles : String → Option Profile
  /-- `user:{id}:friends` set. -/
  friends : String → Finset String
  /-- `user:{id}:incoming_friend_requests` set. -/
  incoming : String → Finset String
  /-- `user:{id}:incoming)_friend_requests` — the distinct key family
  actually named by the srem in src/app/api/friends/deny/route.ts
  (note the stray parenthesis in the template literal). -/
  incomingMistyped : String → Finset String
  /-- `user:{id}:dms` hash: friend id → chat id. -/
  dms : String → String → Option String
  /-- `user:{id}:groups` set of group chat ids. -/
  groups : String → Finset String
  /-- `chat:{id}:members` set. -/
  members : String → Finset String
  /-- `chat:{id}:meta` hash. -/
  meta : String → ChatMeta
  /-- `chat:{id}:messages` sorted set, kept in insertion order; sorting
  happens on read (`zrevrange`). -/
  messages : String → List MsgEntry

/-- Point update of a key-indexed function (one Redis key write). -/
def upd {β : Type} (f : String → β) (k : String) (v : β) : String → β :=
  fun x => if x = k then v else f x

/-- The store with no data at all. -/
def emptyDB : DB where
  emailIndex := fun _ => none
  profiles := fun _ => none
  friends := fun _ => ∅
  incoming := fun _ => ∅
  incomingMistyped := fun _ => ∅
  dms := fun _ _ => none
  groups := fun _ => ∅
  members := fun _ => ∅
  meta := fun _ => emptyMeta
  messages := fun _ => []

/-- Status plus post-state of a state-changing endpoint. -/
structure OpResult where
  status : Nat
  db : DB

/-- Status, optional returned chat id, and post-state. -/
structure ChatOpResult where
  status : Nat
  chatId : Option String
  db : DB

/-! ## Friend Graph Manager -/

/-- Embedding of POST /api/friends/add
(src/app/api/friends/add/route.ts): resolve email, reject self-add,
duplicate request, existing friendship; otherwise insert the sender into
the receiver's incoming-request set.  The pusher trigger does not touch
the store. -/
def sendRequest (db : DB) (senderId email : String) : OpResult :=
  match db.emailIndex email with
  | none => ⟨400, db⟩
  | some idToAdd =>
    if idToAdd = senderId then ⟨400, db⟩
    else if senderId ∈ db.incoming idToAdd then ⟨400, db⟩
    else if idToAdd ∈ db.friends senderId then ⟨400, db⟩
    else
      ⟨200, { db with
        incoming := upd db.incoming idToAdd
          (insert senderId (db.incoming idToAdd)) }⟩

/-- Embedding of POST /api/friends/accept, final revision
(src/app/api/friends/accept/route.ts lines 206-305): reject if already
friends or no pending request; require both profile hashes to resolve;
then add the symmetric friend-set entries and remove the pending
request.  The two pusher triggers do not touch the store. -/
def acceptRequest (db : DB) (accepterId idToAdd : String) : OpResult :=
  if idToAdd ∈ db.friends accepterId then ⟨400, db⟩
  else if idToAdd ∉ db.incoming accepterId then ⟨400, db⟩
  else if db.profiles accepterId = none ∨ db.profiles idToAdd = none then
    ⟨400, db⟩
  else
    let f1 := upd db.friends accepterId (insert idToAdd (db.friends accepterId))
    let f2 := upd f1 idToAdd (insert accepterId (f1 idToAdd))
    ⟨200, { db with
      friends := f2
      incoming := upd db.incoming accepterId
        ((db.incoming accepterId).erase idToAdd) }⟩

/-- Embedding of the deny handler of src/unnamed/part_003 (lines 120-147,
the documented revision of POST /api/friends/deny): unconditionally srem
the sender from the caller's incoming-request set and answer OK. -/
def denyRequest (db : DB) (accepterId idToDeny : String) : OpResult :=
  ⟨200, { db with
    incoming := upd db.incoming accepterId
      ((db.incoming accepterId).erase idToDeny) }⟩

/-- Embedding of the srem performed by the revision at
src/app/api/friends/deny/route.ts (lines 7-34): its key template is
`user:{id}:incoming)_friend_requests` — a different key family than the
one `sendRequest` writes — so the real pending entry is never touched.
(That revision also inverts its Bearer-prefix check; the authentication
layer is stripped here as everywhere else.) -/
def denyRequestRouteFile (db : DB) (accepterId idToDeny : String) : OpResult :=
  ⟨200, { db with
    incomingMistyped := upd db.incomingMistyped accepterId
      ((db.incomingMistyped accepterId).erase idToDeny) }⟩

/-! ## Chat Session Manager: DMs -/

/-- Embedding of POST /api/chat/dms/get-or-create
(src/app/api/chat/dms/get-or-create/route.ts lines 51-115): requires the
callee to be a friend; returns the indexed chat id if present; otherwise
writes both DM-index entries and the member set under the fresh id
`newChatId`, but writes the four metadata fields under `chat:${chatId}:meta`
where `chatId` is still the null lookup result — i.e. under the literal
key `chat:null:meta`, modelled as the meta hash at id `"null"`. -/
def getOrCreateDM (db : DB) (callerId friendId newChatId : String)
    (now : Nat) : ChatOpResult :=
  if friendId ∉ db.friends callerId then ⟨401, none, db⟩
  else
    match db.dms callerId friendId with
    | some chatId => ⟨200, some chatId, db⟩
    | none =>
      let d1 := upd db.dms callerId
        (upd (db.dms callerId) friendId (some newChatId))
      let d2 := upd d1 friendId (upd (d1 friendId) callerId (some newChatId))
      let nullMeta := db.meta "null"
      ⟨200, some newChatId,
        { db with
          dms := d2
          members := upd db.members newChatId
            (insert friendId (insert callerId (db.members newChatId)))
          meta := upd db.meta "null"
            { nullMeta with
              type := some "dms"
              createdAt := some now
              user1 := some callerId
              user2 := some friendId } }⟩

/-- Embedding of the get-or-create revision in src/unnamed/part_009
(lines 50-115): identical to `getOrCreateDM` except the metadata fields
(plus `updatedAt`) are written under the fresh `newChatId`. -/
def getOrCreateDMRev (db : DB) (callerId friendId newChatId : String)
    (now : Nat) : ChatOpResult :=
  if friendId ∉ db.friends callerId then ⟨401, none, db⟩
  else
    match db.dms callerId friendId with
    | some chatId => ⟨200, some chatId, db⟩
    | none =>
      let d1 := upd db.dms callerId
        (upd (db.dms callerId) friendId (some newChatId))
      let d2 := upd d1 friendId (upd (d1 friendId) callerId (some newChatId))
      let m0 := db.meta newChatId
      ⟨200, some newChatId,
        { db with
          dms := d2
          members := upd db.members newChatId
            (insert friendId (insert callerId (db.members newChatId)))
          meta := upd db.meta newChatId
            { m0 with
              type := some "dms"
              createdAt := some now
              user1 := some callerId
              user2 := some friendId
              updatedAt := some now } }⟩

/-- Projection of the body returned by GET /api/chat/dms/[chatId]. -/
structure MetaProjection where
  chatId : String
  type : Option String
  createdAt : Option Nat
  memberIds : List String
  lastMessage : Option Message
deriving DecidableEq, Repr

/-- Status and optional body of a metadata read. -/
structure MetaResult where
  status : Nat
  body : Option MetaProjection
deriving DecidableEq, Repr

/-- Embedding of GET /api/chat/dms/[chatId]
(src/app/api/chat/dms/[chatId]/route.ts lines 82-161): 404 when the meta
hash is empty (this check runs before the membership check), 401 when the
requester is not in the member set, otherwise the projected metadata.
The body's members field is `[user1, user2].filter(Boolean)` from the meta
hash; `lastMessage` parsing is the identity in this model. -/
def getMeta (db : DB) (requesterId chatId : String) : MetaResult :=
  let rawMeta := db.meta chatId
  if rawMeta = emptyMeta then ⟨404, none⟩
  else if requesterId ∉ db.members chatId then ⟨401, none⟩
  else
    ⟨200, some
      { chatId := chatId
        type := rawMeta.type
        createdAt := rawMeta.createdAt
        memberIds := [rawMeta.user1, rawMeta.user2].filterMap id
        lastMessage := rawMeta.lastMessage }⟩

/-! ## Chat Session Manager: groups -/

/-- The member-list normalization of POST /api/chat/group/create:
`members.filter(Boolean)` (dropping empty strings) plus the creator if
absent.  Duplicates are NOT collapsed. -/
def normalizeMembers (members0 : List String) (creatorId : String) :
    List String :=
  let filtered := members0.filter (fun m => decide (m ≠ ""))
  if creatorId ∈ filtered then filtered else filtered ++ [creatorId]

/-- Embedding of POST /api/chat/group/create
(src/app/api/chat/group/create/route.ts lines 51-111): normalizes the
member list, rejects lists of length at most 2 (the check counts
duplicate ids), then writes the member set, the meta hash
(`type/name/createdAt/createdBy`) and each listed member's group index. -/
def createGroup (db : DB) (creatorId name : String) (members0 : List String)
    (newChatId : String) (now : Nat) : ChatOpResult :=
  if (normalizeMembers members0 creatorId).length ≤ 2 then ⟨400, none, db⟩
  else
    ⟨200, some newChatId,
      { db with
        members := upd db.members newChatId
          ((normalizeMembers members0 creatorId).foldl
            (fun s m => insert m s) (db.members newChatId))
        meta := upd db.meta newChatId
          { db.meta newChatId with
            type := some "group"
            name := some name
            createdAt := some now
            createdBy := some creatorId }
        groups := (normalizeMembers members0 creatorId).foldl
          (fun g m => upd g m (insert newChatId (g m))) db.groups }⟩

/-- Embedding of POST /api/chat/group/[chatId]/add-member
(src/app/api/chat/group/[chatId]/add-member/route.ts lines 53-125):
requires only that the chat's meta type is `group` and that `userId` is
not already a member (sadd returned 0 means 409).  The authenticated
actor is never compared against the member set or `createdBy`, and the
profile hash of `userId` is only read to build the response body, with a
fallback when it is absent. -/
def addMember (db : DB) (actorId chatId userId : String) (now : Nat) :
    OpResult :=
  if (db.meta chatId).type ≠ some "group" then ⟨409, db⟩
  else if userId ∈ db.members chatId then ⟨409, db⟩
  else
    ⟨200, { db with
      members := upd db.members chatId (insert userId (db.members chatId))
      groups := upd db.groups userId (insert chatId (db.groups userId))
      meta := upd db.meta chatId
        { db.meta chatId with updatedAt := some now } }⟩

/-- Embedding of the leave handler in src/unnamed/part_005 (lines 43-129,
POST /api/chat/group/[chatId]/leave): 404 when the meta hash is empty,
409 when the chat is not a group, 403 when the caller is not a member;
otherwise remove the caller from the member set and their group index,
bump `updatedAt`, and when no members remain delete the chat's meta hash,
member set and message log. -/
def leave (db : DB) (callerId chatId : String) (now : Nat) : OpResult :=
  if db.meta chatId = emptyMeta then ⟨404, db⟩
  else if (db.meta chatId).type ≠ some "group" then ⟨409, db⟩
  else if callerId ∉ db.members chatId then ⟨403, db⟩
  else
    let db1 : DB :=
      { db with
        members := upd db.members chatId ((db.members chatId).erase callerId)
        groups := upd db.groups callerId ((db.groups callerId).erase chatId)
        meta := upd db.meta chatId
          { db.meta chatId with updatedAt := some now } }
    if db1.members chatId = ∅ then
      ⟨200, { db1 with
        meta := upd db1.meta chatId emptyMeta
        members := upd db1.members chatId ∅
        messages := upd db1.messages chatId [] }⟩
    else ⟨200, db1⟩

/-! ## Message Log -/

/-- Redis `zadd`: update the score when the member is already present,
append otherwise. -/
def zadd (l : List MsgEntry) (score : Nat) (m : Message) : List MsgEntry :=
  if l.any (fun e => decide (e.msg = m)) then
    l.map (fun e => if e.msg = m then ⟨score, m⟩ else e)
  else l ++ [⟨score, m⟩]

/-- Insert an entry into a list sorted by descending score, after all
entries of greater or equal score (ties keep insertion order). -/
def insertDesc (e : MsgEntry) : List MsgEntry → List MsgEntry
  | [] => [e]
  | x :: xs => if x.score < e.score then e :: x :: xs else x :: insertDesc e xs

/-- Stable sort by descending score. -/
def sortDesc (l : List MsgEntry) : List MsgEntry :=
  l.foldl (fun acc e => insertDesc e acc) []

/-- Redis `zrevrange key start stop`: descending rank range with negative
indices counted from the end, stop clamped to the last rank. -/
def zrevrange (l : List MsgEntry) (start stop : Int) : List MsgEntry :=
  let s := sortDesc l
  let n : Int := s.length
  let s0 : Int := if start < 0 then max 0 (n + start) else start
  let e0 : Int := if stop < 0 then n + stop else stop
  let e1 : Int := min e0 (n - 1)
  if s0 > e1 then []
  else ((s.drop s0.toNat).take (e1 - s0 + 1).toNat)

/-- Status, created message and post-state of a send. -/
structure SendResult where
  status : Nat
  message : Option Message
  db : DB

/-- Embedding of the send handler in src/unnamed/part_004 (lines 59-135,
POST /api/chat/group/[chatId]/send): 409 when the chat's meta type is not
`group` (this check runs before the membership check, so a nonexistent
chat also answers 409), 401 when the sender is not a member, 422 on empty
text; otherwise zadd the message scored by its timestamp and overwrite
the `lastMessage` cache. -/
def sendGroupMessage (db : DB) (senderId chatId text msgId : String)
    (now : Nat) : SendResult :=
  if (db.meta chatId).type ≠ some "group" then ⟨409, none, db⟩
  else if senderId ∉ db.members chatId then ⟨401, none, db⟩
  else if text = "" then ⟨422, none, db⟩
  else
    let message : Message := ⟨msgId, senderId, text, now⟩
    ⟨201, some message,
      { db with
        messages := upd db.messages chatId
          (zadd (db.messages chatId) now message)
        meta := upd db.meta chatId
          { db.meta chatId with lastMessage := some message } }⟩

/-- Status and message page of a range read. -/
structure RangeResult where
  status : Nat
  msgs : List Message
deriving DecidableEq, Repr

/-- Embedding of POST /api/chat/group/[chatId]/messages
(src/app/api/chat/group/[chatId]/messages/route.ts lines 87-179): 401
when the requester is not in the member set (checked first, so a
nonexistent chat is also denied), 409 when the meta type is not `group`,
otherwise the zrevrange page with each entry deserialized (the identity
here, so no entry is dropped). -/
def rangeMessages (db : DB) (requesterId chatId : String)
    (startPos endPos : Int) : RangeResult :=
  if requesterId ∉ db.members chatId then ⟨401, []⟩
  else if (db.meta chatId).type ≠ some "group" then ⟨409, []⟩
  else ⟨200, (zrevrange (db.messages chatId) startPos endPos).map (·.msg)⟩

/-! ## Friend-operation traces (for the request/edge exclusivity claim) -/

/-- One invocation of a friend-graph endpoint. -/
inductive FriendOp where
  | send (senderId email : String)
  | accept (accepterId senderId : String)
  | deny (accepterId senderId : String)

/-- The store after one friend-graph call (whatever its status). -/
def applyOp (db : DB) : FriendOp → DB
  | .send s e => (sendRequest db s e).db
  | .accept a s => (acceptRequest db a s).db
  | .deny a s => (denyRequest db a s).db

/-- The store after a sequence of friend-graph calls. -/
def runOps (db : DB) (ops : List FriendOp) : DB := ops.foldl applyOp db

/-- The durable facts established by a successful accept between `a`
(accepter) and `b` (sender): the symmetric friend edge exists and the
consumed request `b` is absent from `a`'s incoming set. -/
def pairInv (db : DB) (a b : String) : Prop :=
  b ∈ db.friends a ∧ a ∈ db.friends b ∧ b ∉ db.incoming a

/-! ## Concrete stores used by witnesses and counterexamples -/

/-- Two registered users a and b, not yet related. -/
def dbPair : DB := { emptyDB with
  emailIndex := fun e =>
    if e = "a@x" then some "a" else if e = "b@x" then some "b" else none
  profiles := fun u =>
    if u = "a" then some ⟨"a", "Ann", "a@x", none⟩
    else if u = "b" then some ⟨"b", "Ben", "b@x", none⟩ else none }

/-- Like `dbPair` but user a already has a pending request from user b. -/
def dbPending : DB := { dbPair with
  incoming := fun u => if u = "a" then {"b"} else ∅ }

/-- The state reached from `dbPair` by sending a request in each
direction (the bidirectional-request race, run sequentially). -/
def dbBothPending : DB :=
  runOps dbPair [.send "a" "b@x", .send "b" "a@x"]

/-- Users a and b are friends and share no DM yet. -/
def dbFriends : DB := { emptyDB with
  friends := fun u =>
    if u = "a" then {"b"} else if u = "b" then {"a"} else ∅ }

/-- A group chat g1 with members b and c, created by b; the probing
actor a is neither a member nor the creator, and user u has no profile
hash. -/
def dbGroup : DB := { emptyDB with
  meta := fun c =>
    if c = "g1" then
      { type := some "group", name := some "grp", createdAt := some 1,
        createdBy := some "b" }
    else emptyMeta
  members := fun c => if c = "g1" then {"b", "c"} else ∅
  groups := fun u => if u = "b" ∨ u = "c" then {"g1"} else ∅ }

/-- A two-member DM chat d1 between a and b. -/
def dbDm : DB := { emptyDB with
  meta := fun c =>
    if c = "d1" then
      { type := some "dms", createdAt := some 1,
        user1 := some "a", user2 := some "b" }
    else emptyMeta
  members := fun c => if c = "d1" then {"a", "b"} else ∅ }

/-- A group g1 whose only member is a. -/
def dbGroupSolo : DB := { emptyDB with
  meta := fun c =>
    if c = "g1" then
      { type := some "group", name := some "grp",
        createdAt := some 1, createdBy := some "a" }
    else emptyMeta
  members := fun c => if c = "g1" then {"a"} else ∅
  groups := fun u => if u = "a" then {"g1"} else ∅ }

/-! ## Helper lemmas -/

@[simp] theorem upd_self {β : Type} (f : String → β) (k : String) (v : β) :
    upd f k v k = v := by
  simp [upd]

theorem upd_ne {β : Type} (f : String → β) (k : String) (v : β) {x : String}
    (h : x ≠ k) : upd f k v x = f x := by
  simp [upd, h]

theorem mem_upd {f : String → Finset String} {g : Finset String}
    {x v k : String} (h : v ∈ f x) (hg : f k ⊆ g) : v ∈ upd f k g x := by
  unfold upd; split
  · next he => exact hg (he ▸ h)
  · exact h

theorem mem_upd_self_insert {f : String → Finset String} {k v : String} :
    v ∈ upd f k (insert v (f k)) k := by
  simp [upd]

theorem not_mem_upd_of_subset {f : String → Finset String} {g : Finset String}
    {k x v : String} (hg : g ⊆ f k) (h : v ∉ f x) : v ∉ upd f k g x := by
  unfold upd; split
  · next he => exact fun hm => h (he ▸ hg hm)
  · exact h

theorem foldl_insert_eq_union (l : List String) (s : Finset String) :
    l.foldl (fun t m => insert m t) s = s ∪ l.toFinset := by
  induction l generalizing s with
  | nil => simp
  | cons a l ih =>
    simp only [List.foldl_cons, ih, List.toFinset_cons]
    ext x
    simp only [Finset.mem_union, Finset.mem_insert, List.mem_toFinset]
    tauto

theorem foldl_groups_mem (l : List String) (g : String → Finset String)
    (n m : String) (h : m ∈ l ∨ n ∈ g m) :
    n ∈ (l.foldl (fun g x => upd g x (insert n (g x))) g) m := by
  induction l generalizing g with
  | nil => simpa using h.resolve_left (by simp)
  | cons a l ih =>
    simp only [List.foldl_cons]
    apply ih
    rcases h with hml | hg
    · rcases List.mem_cons.mp hml with rfl | hml'
      · right; rw [upd_self]; exact Finset.mem_insert_self _ _
      · left; exact hml'
    · right
      by_cases hma : m = a
      · subst hma; rw [upd_self]; exact Finset.mem_insert_of_mem hg
      · rw [upd_ne _ _ _ hma]; exact hg

/-- The durable effects of a successful `acceptRequest`: both friend-set
entries exist and the consumed request is gone. -/
theorem accept_success_effects (db : DB) (a b : String)
    (h : (acceptRequest db a b).status = 200) :
    b ∈ (acceptRequest db a b).db.friends a ∧
    a ∈ (acceptRequest db a b).db.friends b ∧
    b ∉ (acceptRequest db a b).db.incoming a := by
  by_cases h1 : b ∈ db.friends a
  · simp [acceptRequest, h1] at h
  by_cases h2 : b ∈ db.incoming a
  swap
  · simp [acceptRequest, h1, h2] at h
  by_cases h3 : db.profiles a = none ∨ db.profiles b = none
  · simp [acceptRequest, h1, h2, h3] at h
  unfold acceptRequest
  rw [if_neg h1, if_neg (by simpa using h2), if_neg h3]
  refine ⟨mem_upd mem_upd_self_insert (Finset.subset_insert _ _),
    mem_upd_self_insert, ?_⟩
  show b ∉ upd db.incoming a ((db.incoming a).erase b) a
  rw [upd_self]
  exact Finset.not_mem_erase _ _

/-- `pairInv` is preserved by every friend-graph endpoint: sends that
would target the consumed direction are stopped by the already-friends
guard, accepts only insert into friend sets, denies only erase from
incoming sets. -/
theorem pairInv_applyOp {db : DB} {a b : String} (h : pairInv db a b)
    (op : FriendOp) : pairInv (applyOp db op) a b := by
  obtain ⟨hfab, hfba, hni⟩ := h
  cases op with
  | send s e =>
    show pairInv (sendRequest db s e).db a b
    unfold sendRequest
    cases hm : db.emailIndex e with
    | none => exact ⟨hfab, hfba, hni⟩
    | some x =>
      simp only
      by_cases g1 : x = s
      · rw [if_pos g1]; exact ⟨hfab, hfba, hni⟩
      rw [if_neg g1]
      by_cases g2 : s ∈ db.incoming x
      · rw [if_pos g2]; exact ⟨hfab, hfba, hni⟩
      rw [if_neg g2]
      by_cases g3 : x ∈ db.friends s
      · rw [if_pos g3]; exact ⟨hfab, hfba, hni⟩
      rw [if_neg g3]
      refine ⟨hfab, hfba, ?_⟩
      show b ∉ upd db.incoming x (insert s (db.incoming x)) a
      unfold upd; split
      · next hax =>
        intro hmem
        rcases Finset.mem_insert.mp hmem with hbs | hba2
        · exact g3 (by rw [← hax, ← hbs]; exact hfba)
        · exact hni (by rw [hax]; exact hba2)
      · exact hni
  | accept x y =>
    show pairInv (acceptRequest db x y).db a b
    unfold acceptRequest
    by_cases g1 : y ∈ db.friends x
    · rw [if_pos g1]; exact ⟨hfab, hfba, hni⟩
    rw [if_neg g1]
    by_cases g2 : y ∈ db.incoming x
    swap
    · rw [if_pos (by simpa using g2)]; exact ⟨hfab, hfba, hni⟩
    rw [if_neg (by simpa using g2)]
    by_cases g3 : db.profiles x = none ∨ db.profiles y = none
    · rw [if_pos g3]; exact ⟨hfab, hfba, hni⟩
    rw [if_neg g3]
    exact ⟨mem_upd (mem_upd hfab (Finset.subset_insert _ _))
        (Finset.subset_insert _ _),
      mem_upd (mem_upd hfba (Finset.subset_insert _ _))
        (Finset.subset_insert _ _),
      not_mem_upd_of_subset (Finset.erase_subset _ _) hni⟩
  | deny x y =>
    show pairInv (denyRequest db x y).db a b
    exact ⟨hfab, hfba,
      not_mem_upd_of_subset (Finset.erase_subset _ _) hni⟩

/-- `pairInv` is preserved by any sequence of friend-graph calls. -/
theorem pairInv_runOps {db : DB} {a b : String} (h : pairInv db a b)
    (ops : List FriendOp) : pairInv (runOps db ops) a b := by
  induction ops generalizing db with
  | nil => exact h
  | cons op ops ih => exact ih (pairInv_applyOp h op)

/-! ## Claim theorems -/

/-- C1: whenever `acceptRequest(A, B)` succeeds, B is in A's friend set
and A is in B's friend set afterwards, and the pending request from B in
A's incoming-request set no longer exists. -/
theorem acceptRequest_symmetric (db : DB) (a b : String)
    (h : (acceptRequest db a b).status = 200) :
    b ∈ (acceptRequest db a b).db.friends a ∧
    a ∈ (acceptRequest db a b).db.friends b ∧
    b ∉ (acceptRequest db a b).db.incoming a :=
  accept_success_effects db a b h

/-- C1 witness: a concrete successful accept, run on a store holding a
pending request from b to a. -/
theorem acceptRequest_symmetric_witness :
    (acceptRequest dbPending "a" "b").status = 200 ∧
    ("b" ∈ (acceptRequest dbPending "a" "b").db.friends "a" ∧
     "a" ∈ (acceptRequest dbPending "a" "b").db.friends "b" ∧
     "b" ∉ (acceptRequest dbPending "a" "b").db.incoming "a") :=
  ⟨by decide, acceptRequest_symmetric dbPending "a" "b" (by decide)⟩

/-- C2 counterexample: the reachable trace send(a→b); send(b→a);
accept(a,b) — every step succeeding — ends in an observable state where
the friend edge between a and b and the pending request a→b (a still in
b's incoming set) both exist, refuting mutual exclusion "in either
direction". -/
theorem request_edge_coexistence :
    (sendRequest dbPair "a" "b@x").status = 200 ∧
    (sendRequest (sendRequest dbPair "a" "b@x").db "b" "a@x").status = 200 ∧
    (sendRequest (sendRequest dbPair "a" "b@x").db "b" "a@x").db
      = dbBothPending ∧
    (acceptRequest dbBothPending "a" "b").status = 200 ∧
    "b" ∈ (acceptRequest dbBothPending "a" "b").db.friends "a" ∧
    "a" ∈ (acceptRequest dbBothPending "a" "b").db.friends "b" ∧
    "a" ∈ (acceptRequest dbBothPending "a" "b").db.incoming "b" := by
  refine ⟨by decide, by decide, rfl, by decide, by decide, by decide,
    by decide⟩

/-- C2 amended: once `acceptRequest(A,B)` has succeeded, in every state
reachable by further sendRequest/acceptRequest/denyRequest calls the
friend edge exists and the request in the consumed direction (B in A's
incoming set) does not; a pending request in the opposite direction may
persist alongside the edge. -/
theorem accepted_pair_invariant (db : DB) (a b : String)
    (h : (acceptRequest db a b).status = 200) (ops : List FriendOp) :
    pairInv (runOps (acceptRequest db a b).db ops) a b :=
  pairInv_runOps (accept_success_effects db a b h) ops

/-- C2 amended witness: the invariant after a concrete successful accept
followed by a re-send attempt in each direction and a deny. -/
theorem accepted_pair_invariant_witness :
    (acceptRequest dbPending "a" "b").status = 200 ∧
    pairInv (runOps (acceptRequest dbPending "a" "b").db
      [.send "b" "a@x", .deny "b" "a", .send "a" "b@x"]) "a" "b" :=
  ⟨by decide, accepted_pair_invariant dbPending "a" "b" (by decide) _⟩

/-- C3: evaluating the creation branch of getOrCreateDM at a concrete
fresh pair shows both DM-index entries and the member set are written
under the new chat id "c1", but the metadata hash at "c1" stays empty —
the `type/createdAt/user1/user2` fields land under the id "null"
(the handler interpolates the null lookup result into the meta key). -/
theorem getOrCreateDM_meta_written_under_null :
    (getOrCreateDM dbFriends "a" "b" "c1" 5).status = 200 ∧
    (getOrCreateDM dbFriends "a" "b" "c1" 5).chatId = some "c1" ∧
    (getOrCreateDM dbFriends "a" "b" "c1" 5).db.dms "a" "b" = some "c1" ∧
    (getOrCreateDM dbFriends "a" "b" "c1" 5).db.dms "b" "a" = some "c1" ∧
    (getOrCreateDM dbFriends "a" "b" "c1" 5).db.members "c1" = {"a", "b"} ∧
    (getOrCreateDM dbFriends "a" "b" "c1" 5).db.meta "c1" = emptyMeta ∧
    ((getOrCreateDM dbFriends "a" "b" "c1" 5).db.meta "null").type
      = some "dms" ∧
    ((getOrCreateDM dbFriends "a" "b" "c1" 5).db.meta "null").createdAt
      = some 5 ∧
    ((getOrCreateDM dbFriends "a" "b" "c1" 5).db.meta "null").user1
      = some "a" ∧
    ((getOrCreateDM dbFriends "a" "b" "c1" 5).db.meta "null").user2
      = some "b" := by
  decide

/-- The revision of get-or-create in src/unnamed/part_009 writes the same
metadata under the fresh chat id, as the spec describes. -/
theorem getOrCreateDMRev_meta_under_new_id :
    (getOrCreateDMRev dbFriends "a" "b" "c1" 5).chatId = some "c1" ∧
    ((getOrCreateDMRev dbFriends "a" "b" "c1" 5).db.meta "c1").type
      = some "dms" ∧
    ((getOrCreateDMRev dbFriends "a" "b" "c1" 5).db.meta "c1").createdAt
      = some 5 ∧
    ((getOrCreateDMRev dbFriends "a" "b" "c1" 5).db.meta "c1").user1
      = some "a" ∧
    ((getOrCreateDMRev dbFriends "a" "b" "c1" 5).db.meta "c1").user2
      = some "b" ∧
    (getOrCreateDMRev dbFriends "a" "b" "c1" 5).db.members "c1"
      = {"a", "b"} := by
  decide

/-- C4: for friends A and B whose DM-index entries agree in both
directions (they are written only in symmetric pairs), a second
`getOrCreateDM(A,B)` call and a `getOrCreateDM(B,A)` call both return
the chat id of the first call. -/
theorem getOrCreateDM_idempotent (db : DB) (a b n1 n2 : String)
    (t1 t2 t3 : Nat)
    (hab : b ∈ db.friends a) (hba : a ∈ db.friends b)
    (hsym : db.dms a b = db.dms b a) :
    (getOrCreateDM db a b n1 t1).status = 200 ∧
    (getOrCreateDM (getOrCreateDM db a b n1 t1).db a b n2 t2).chatId
      = (getOrCreateDM db a b n1 t1).chatId ∧
    (getOrCreateDM (getOrCreateDM db a b n1 t1).db b a n2 t3).chatId
      = (getOrCreateDM db a b n1 t1).chatId := by
  cases hd : db.dms a b with
  | some c =>
    have hd2 : db.dms b a = some c := hsym ▸ hd
    simp [getOrCreateDM, hab, hba, hd, hd2]
  | none =>
    by_cases hab' : a = b
    · subst hab'
      simp [getOrCreateDM, hab, hd, upd]
    · simp [getOrCreateDM, hab, hba, hd, upd, hab',
        fun h : b = a => hab' h.symm]

/-- C4 witness: concrete friends a and b starting with no DM entry. -/
theorem getOrCreateDM_idempotent_witness :
    ("b" ∈ dbFriends.friends "a" ∧ "a" ∈ dbFriends.friends "b" ∧
      dbFriends.dms "a" "b" = dbFriends.dms "b" "a") ∧
    ((getOrCreateDM dbFriends "a" "b" "c1" 1).status = 200 ∧
     (getOrCreateDM (getOrCreateDM dbFriends "a" "b" "c1" 1).db
        "a" "b" "c2" 2).chatId
       = (getOrCreateDM dbFriends "a" "b" "c1" 1).chatId ∧
     (getOrCreateDM (getOrCreateDM dbFriends "a" "b" "c1" 1).db
        "b" "a" "c2" 3).chatId
       = (getOrCreateDM dbFriends "a" "b" "c1" 1).chatId) :=
  ⟨⟨by decide, by decide, by decide⟩,
    getOrCreateDM_idempotent dbFriends "a" "b" "c1" "c2" 1 2 3
      (by decide) (by decide) (by decide)⟩

/-- C5 counterexample: `createGroup(a, "grp", [b, b])` succeeds (the
size check counts the duplicate), yet the resulting member set has only
2 distinct members, refuting "fails exactly when fewer than 3 distinct
members". -/
theorem createGroup_duplicates_pass :
    normalizeMembers ["b", "b"] "a" = ["b", "b", "a"] ∧
    (createGroup emptyDB "a" "grp" ["b", "b"] "c1" 7).status = 200 ∧
    (createGroup emptyDB "a" "grp" ["b", "b"] "c1" 7).db.members "c1"
      = {"b", "a"} ∧
    ((createGroup emptyDB "a" "grp" ["b", "b"] "c1" 7).db.members "c1").card
      = 2 := by
  decide

/-- C5 amended: createGroup fails exactly when the normalized member
list (falsy entries dropped, creator appended if absent, duplicates
kept) has length at most 2; on success, under a fresh chat id the member
set equals the distinct normalized members, the metadata carries
type=group, createdAt and createdBy=creator, and every listed member's
group index gains the chat id. -/
theorem createGroup_spec (db : DB) (creatorId name : String)
    (members0 : List String) (n : String) (t : Nat)
    (hfresh : db.members n = ∅) :
    ((normalizeMembers members0 creatorId).length ≤ 2 →
      (createGroup db creatorId name members0 n t).status = 400 ∧
      (createGroup db creatorId name members0 n t).db = db) ∧
    (2 < (normalizeMembers members0 creatorId).length →
      (createGroup db creatorId name members0 n t).status = 200 ∧
      (createGroup db creatorId name members0 n t).chatId = some n ∧
      (createGroup db creatorId name members0 n t).db.members n
        = (normalizeMembers members0 creatorId).toFinset ∧
      ((createGroup db creatorId name members0 n t).db.meta n).type
        = some "group" ∧
      ((createGroup db creatorId name members0 n t).db.meta n).createdAt
        = some t ∧
      ((createGroup db creatorId name members0 n t).db.meta n).createdBy
        = some creatorId ∧
      ∀ m ∈ normalizeMembers members0 creatorId,
        n ∈ (createGroup db creatorId name members0 n t).db.groups m) := by
  constructor
  · intro hle
    simp [createGroup, hle]
  · intro hgt
    have hle : ¬((normalizeMembers members0 creatorId).length ≤ 2) :=
      not_le.mpr hgt
    unfold createGroup
    rw [if_neg hle]
    refine ⟨rfl, rfl, ?_, ?_, ?_, ?_, ?_⟩
    · show upd db.members n _ n = _
      rw [upd_self, foldl_insert_eq_union, hfresh, Finset.empty_union]
    · show (upd db.meta n _ n).type = _
      rw [upd_self]
    · show (upd db.meta n _ n).createdAt = _
      rw [upd_self]
    · show (upd db.meta n _ n).createdBy = _
      rw [upd_self]
    · intro m hm
      exact foldl_groups_mem _ _ _ _ (Or.inl hm)

/-- C5 amended witness: a concrete 3-member creation on a fresh store. -/
theorem createGroup_spec_witness :
    (emptyDB.members "c1" = ∅ ∧
      2 < (normalizeMembers ["b", "c"] "a").length) ∧
    ((createGroup emptyDB "a" "grp" ["b", "c"] "c1" 7).status = 200 ∧
     (createGroup emptyDB "a" "grp" ["b", "c"] "c1" 7).db.members "c1"
       = (normalizeMembers ["b", "c"] "a").toFinset ∧
     ∀ m ∈ normalizeMembers ["b", "c"] "a",
       "c1" ∈ (createGroup emptyDB "a" "grp" ["b", "c"] "c1" 7).db.groups m) :=
  ⟨⟨by decide, by decide⟩, by
    have h := (createGroup_spec emptyDB "a" "grp" ["b", "c"] "c1" 7
      (by decide)).2 (by decide)
    exact ⟨h.1, h.2.2.1, h.2.2.2.2.2.2⟩⟩

/-- C6 counterexample: leaving an existing non-group chat (a DM) as a
member answers 409 Conflict, not 403 Forbidden, and leaving a
nonexistent chat answers 404 — so leave does not fail Forbidden whenever
the chat is not a group with the caller a member. -/
theorem leave_nonGroup_is_conflict :
    "a" ∈ dbDm.members "d1" ∧
    (leave dbDm "a" "d1" 9).status = 409 ∧
    (leave dbDm "a" "d1" 9).status ≠ 403 ∧
    (leave emptyDB "a" "d1" 9).status = 404 := by
  decide

/-- C6 amended: leave answers NotFound when the chat metadata is absent,
Conflict when the chat is not a group, Forbidden when the caller is not
a member; on success it removes the caller from the member set and the
caller's group index, and when the remaining membership is empty it
deletes the chat metadata, member set and message log, after which
getMeta on that chat answers NotFound for every requester. -/
theorem leave_spec (db : DB) (callerId chatId : String) (now : Nat) :
    (db.meta chatId = emptyMeta →
      (leave db callerId chatId now).status = 404) ∧
    (db.meta chatId ≠ emptyMeta → (db.meta chatId).type ≠ some "group" →
      (leave db callerId chatId now).status = 409) ∧
    (db.meta chatId ≠ emptyMeta → (db.meta chatId).type = some "group" →
      callerId ∉ db.members chatId →
      (leave db callerId chatId now).status = 403) ∧
    (db.meta chatId ≠ emptyMeta → (db.meta chatId).type = some "group" →
      callerId ∈ db.members chatId →
      (leave db callerId chatId now).status = 200 ∧
      callerId ∉ (leave db callerId chatId now).db.members chatId ∧
      chatId ∉ (leave db callerId chatId now).db.groups callerId ∧
      ((leave db callerId chatId now).db.members chatId = ∅ →
        (leave db callerId chatId now).db.meta chatId = emptyMeta ∧
        (leave db callerId chatId now).db.messages chatId = [] ∧
        ∀ u, (getMeta (leave db callerId chatId now).db u chatId).status
          = 404)) := by
  refine ⟨?_, ?_, ?_, ?_⟩
  · intro h; simp [leave, h]
  · intro h1 h2; simp [leave, h1, h2]
  · intro h1 h2 h3; simp [leave, h1, h2, h3]
  · intro h1 h2 h3
    by_cases hc : (db.members chatId).erase callerId = ∅
    · have : (upd db.members chatId ((db.members chatId).erase callerId))
        chatId = ∅ := by rw [upd_self, hc]
      simp [leave, h1, h2, h3, upd, hc, getMeta]
    · have : (upd db.members chatId ((db.members chatId).erase callerId))
        chatId ≠ ∅ := by rw [upd_self]; exact hc
      simp [leave, h1, h2, h3, upd, hc, Finset.not_mem_erase]

/-- C6 amended witness: the last member leaving a one-member group
triggers the cascade and getMeta then answers 404. -/
theorem leave_spec_witness :
    (dbGroupSolo.meta "g1" ≠ emptyMeta ∧
     (dbGroupSolo.meta "g1").type = some "group" ∧
     "a" ∈ dbGroupSolo.members "g1") ∧
    ((leave dbGroupSolo "a" "g1" 3).status = 200 ∧
     (leave dbGroupSolo "a" "g1" 3).db.members "g1" = ∅ ∧
     (leave dbGroupSolo "a" "g1" 3).db.meta "g1" = emptyMeta ∧
     (getMeta (leave dbGroupSolo "a" "g1" 3).db "b" "g1").status = 404) := by
  have H := (leave_spec dbGroupSolo "a" "g1" 3).2.2.2
    (by decide) (by decide) (by decide)
  exact ⟨⟨by decide, by decide, by decide⟩, H.1, by decide,
    (H.2.2.2 (by decide)).1, (H.2.2.2 (by decide)).2.2 "b"⟩

/-- C7: appending m1 then m2 with m1.timestamp < m2.timestamp to a chat
whose log was empty, `range(chatId, 0, -1)` returns [m2, m1] — newest
first, m1 sorting after m2. -/
theorem message_order (db : DB) (c sender x1 x2 i1 i2 : String) (t1 t2 : Nat)
    (hty : (db.meta c).type = some "group") (hm : sender ∈ db.members c)
    (h1 : x1 ≠ "") (h2 : x2 ≠ "") (hts : t1 < t2)
    (hempty : db.messages c = []) :
    (sendGroupMessage db sender c x1 i1 t1).status = 201 ∧
    (sendGroupMessage (sendGroupMessage db sender c x1 i1 t1).db
      sender c x2 i2 t2).status = 201 ∧
    (rangeMessages
        (sendGroupMessage (sendGroupMessage db sender c x1 i1 t1).db
          sender c x2 i2 t2).db sender c 0 (-1)).msgs
      = [⟨i2, sender, x2, t2⟩, ⟨i1, sender, x1, t1⟩] := by
  simp [sendGroupMessage, rangeMessages, zrevrange, sortDesc, insertDesc,
    zadd, upd, hty, hm, h1, h2, hempty, hts, hts.ne, Message.mk.injEq]

/-- C7 witness: two concrete messages in a fresh one-member group. -/
theorem message_order_witness :
    ((dbGroupSolo.meta "g1").type = some "group" ∧
     "a" ∈ dbGroupSolo.members "g1" ∧ ("hi" : String) ≠ "" ∧
     ("yo" : String) ≠ "" ∧ 1 < 2 ∧ dbGroupSolo.messages "g1" = []) ∧
    (rangeMessages
        (sendGroupMessage (sendGroupMessage dbGroupSolo "a" "g1" "hi" "m1" 1).db
          "a" "g1" "yo" "m2" 2).db "a" "g1" 0 (-1)).msgs
      = [⟨"m2", "a", "yo", 2⟩, ⟨"m1", "a", "hi", 1⟩] :=
  ⟨⟨by decide, by decide, by decide, by decide, by decide, by decide⟩,
    (message_order dbGroupSolo "g1" "a" "hi" "yo" "m1" "m2" 1 2
      (by decide) (by decide) (by decide) (by decide) (by decide)
      (by decide)).2.2⟩

/-- C8 counterexample: a non-member probing a nonexistent chat receives
404 from getMeta and 409 from append, not Unauthorized/Forbidden — the
denial does not hold "regardless of whether the chat exists" (only the
range endpoint checks membership first). -/
theorem nonmember_probe_not_denied :
    emptyDB.meta "c" = emptyMeta ∧ "u" ∉ emptyDB.members "c" ∧
    (getMeta emptyDB "u" "c").status = 404 ∧
    (sendGroupMessage emptyDB "u" "c" "hi" "m1" 1).status = 409 ∧
    (rangeMessages emptyDB "u" "c" 0 (-1)).status = 401 := by
  decide

/-- C8 amended: a user not in the member set is answered 401 by getMeta
on an existing chat, by append on an existing group chat, and by range
unconditionally. -/
theorem nonmember_denied (db : DB) (u c text msgId : String) (t : Nat)
    (sp ep : Int) :
    (db.meta c ≠ emptyMeta → u ∉ db.members c →
      (getMeta db u c).status = 401) ∧
    ((db.meta c).type = some "group" → u ∉ db.members c →
      (sendGroupMessage db u c text msgId t).status = 401) ∧
    (u ∉ db.members c → (rangeMessages db u c sp ep).status = 401) := by
  refine ⟨?_, ?_, ?_⟩
  · intro g1 g2; simp [getMeta, g1, g2]
  · intro g1 g2; simp [sendGroupMessage, g1, g2]
  · intro g; simp [rangeMessages, g]

/-- C8 amended witness: a concrete non-member u against the existing DM
d1 and the existing group g1. -/
theorem nonmember_denied_witness :
    (dbDm.meta "d1" ≠ emptyMeta ∧ "u" ∉ dbDm.members "d1" ∧
     (getMeta dbDm "u" "d1").status = 401) ∧
    ((dbGroup.meta "g1").type = some "group" ∧
     "u" ∉ dbGroup.members "g1" ∧
     (sendGroupMessage dbGroup "u" "g1" "hi" "m1" 1).status = 401 ∧
     (rangeMessages dbGroup "u" "g1" 0 (-1)).status = 401) := by
  have H1 := nonmember_denied dbDm "u" "d1" "hi" "m1" 1 0 (-1)
  have H2 := nonmember_denied dbGroup "u" "g1" "hi" "m1" 1 0 (-1)
  exact ⟨⟨by decide, by decide, H1.1 (by decide) (by decide)⟩,
    ⟨by decide, by decide, H2.2.1 (by decide) (by decide),
      H2.2.2 (by decide)⟩⟩

/-- C9: evaluating the deny revision at src/app/api/friends/deny/route.ts
on a store where a has a pending request from b: the handler answers OK
but the entry survives, because its srem names the key family
`user:{id}:incoming)_friend_requests` instead of
`user:{id}:incoming_friend_requests`. -/
theorem deny_route_leaves_request :
    (denyRequestRouteFile dbPending "a" "b").status = 200 ∧
    "b" ∈ (denyRequestRouteFile dbPending "a" "b").db.incoming "a" := by
  decide

/-- The deny revision of src/unnamed/part_003 removes the pending entry
in every store — idempotently, an absent entry not being an error. -/
theorem denyRequest_removes (db : DB) (a b : String) :
    (denyRequest db a b).status = 200 ∧
    b ∉ (denyRequest db a b).db.incoming a :=
  ⟨rfl, by
    show b ∉ upd db.incoming a ((db.incoming a).erase b) a
    rw [upd_self]; exact Finset.not_mem_erase _ _⟩

/-- C10: on any group chat, addMember with a not-yet-member target
succeeds — updating the member set, the target's group index and
updatedAt — for every actor (no membership or creator check on the
actor) and whether or not the target resolves to a profile. -/
theorem addMember_no_actor_check (db : DB) (actorId chatId userId : String)
    (now : Nat) (hty : (db.meta chatId).type = some "group")
    (hnm : userId ∉ db.members chatId) :
    (addMember db actorId chatId userId now).status = 200 ∧
    userId ∈ (addMember db actorId chatId userId now).db.members chatId ∧
    chatId ∈ (addMember db actorId chatId userId now).db.groups userId ∧
    ((addMember db actorId chatId userId now).db.meta chatId).updatedAt
      = some now := by
  simp [addMember, hty, hnm, upd]

/-- C10 witness: actor a is neither a member nor the creator of g1 and
target u has no profile hash, yet the add succeeds. -/
theorem addMember_no_actor_check_witness :
    ((dbGroup.meta "g1").type = some "group" ∧
     "u" ∉ dbGroup.members "g1" ∧
     "a" ∉ dbGroup.members "g1" ∧ dbGroup.profiles "u" = none) ∧
    ((addMember dbGroup "a" "g1" "u" 9).status = 200 ∧
     "u" ∈ (addMember dbGroup "a" "g1" "u" 9).db.members "g1" ∧
     "g1" ∈ (addMember dbGroup "a" "g1" "u" 9).db.groups "u" ∧
     ((addMember dbGroup "a" "g1" "u" 9).db.meta "g1").updatedAt = some 9) :=
  ⟨⟨by decide, by decide, by decide, by decide⟩,
    addMember_no_actor_check dbGroup "a" "g1" "u" 9 (by decide) (by decide)⟩

end FComm
